import Mathlib

/-!
Shallow embedding of the nulvox/usbd-human-interface-device sources
(src/hid_class/descriptor.rs and src/device/switch_gamepad.rs) and of the
spec-described behaviour of the generic interface engine they rely on.
Machine integers are modelled as Nat with explicit reductions mod 256 at
the byte boundaries.
-/

namespace UsbdHid

/-! ### src/hid_class/descriptor.rs -/

/-- From descriptor.rs: the USB HID class code constant. -/
def USB_CLASS_HID : Nat := 0x03

/-- From descriptor.rs: enum InterfaceProtocol, one byte code per variant. -/
inductive InterfaceProtocol
  | None
  | Keyboard
  | Mouse
  | Joystick
  | Gamepad
  | Generic
  | Vendor
  deriving DecidableEq, Repr

/-- From descriptor.rs: the repr(u8) discriminant of each InterfaceProtocol variant. -/
def InterfaceProtocol.code : InterfaceProtocol → Nat
  | .None => 0x00
  | .Keyboard => 0x01
  | .Mouse => 0x02
  | .Joystick => 0x04
  | .Gamepad => 0x05
  | .Generic => 0x06
  | .Vendor => 0xFF

/-- From descriptor.rs: enum DescriptorType with codes Hid = 0x21, Report = 0x22. -/
inductive DescriptorType
  | Hid
  | Report
  deriving DecidableEq, Repr

/-- The repr(u8) discriminant of each DescriptorType variant. -/
def DescriptorType.code : DescriptorType → Nat
  | .Hid => 0x21
  | .Report => 0x22

/-- The PrimitiveEnum derive on DescriptorType: decoding a byte matches the
declared discriminants and yields none for every other value. -/
def DescriptorType.fromPrimitive (b : Nat) : Option DescriptorType :=
  if b = 0x21 then some DescriptorType.Hid
  else if b = 0x22 then some DescriptorType.Report
  else none

/-- From descriptor.rs: enum InterfaceSubClass with codes None = 0x00, Boot = 0x01. -/
inductive InterfaceSubClass
  | None
  | Boot
  deriving DecidableEq, Repr

/-- The repr(u8) discriminant of each InterfaceSubClass variant. -/
def InterfaceSubClass.code : InterfaceSubClass → Nat
  | .None => 0x00
  | .Boot => 0x01

/-- From descriptor.rs: impl From InterfaceProtocol for InterfaceSubClass -
None maps to None, every other protocol maps to Boot. -/
def InterfaceSubClass.fromProtocol (protocol : InterfaceProtocol) : InterfaceSubClass :=
  if protocol = InterfaceProtocol.None then InterfaceSubClass.None
  else InterfaceSubClass.Boot

/-- From descriptor.rs: enum HidProtocol with codes Boot = 0x00, Report = 0x01. -/
inductive HidProtocol
  | Boot
  | Report
  deriving DecidableEq, Repr

/-- The repr(u8) discriminant of each HidProtocol variant. -/
def HidProtocol.code : HidProtocol → Nat
  | .Boot => 0x00
  | .Report => 0x01

/-- The PrimitiveEnum derive on HidProtocol: decoding a byte matches the
declared discriminants and yields none for every other value. -/
def HidProtocol.fromPrimitive (b : Nat) : Option HidProtocol :=
  if b = 0x00 then some HidProtocol.Boot
  else if b = 0x01 then some HidProtocol.Report
  else none

/-! ### src/device/switch_gamepad.rs: the report descriptor constant -/

/-- From switch_gamepad.rs lines 18-64: the SWITCH_GAMEPAD_REPORT_DESCRIPTOR
byte constant, transcribed byte for byte in source order. -/
def SWITCH_GAMEPAD_REPORT_DESCRIPTOR : List Nat := [
  0x08, 0x01,
  0x08, 0x05,
  0x08, 0x01,
  0x08, 0x00,
  0x08, 0x01,
  0x08, 0x00,
  0x08, 0x01,
  0x08, 0x01,
  0x08, 0x10,
  0x08, 0x09,
  0x08, 0x01,
  0x08, 0x10,
  0x08, 0x02,
  0x08, 0x01,
  0x08, 0x07,
  0x10, 0x01, 0x3B,
  0x08, 0x04,
  0x08, 0x01,
  0x08, 0x14,
  0x08, 0x39,
  0x08, 0x42,
  0x08, 0x00,
  0x08, 0x01,
  0x08, 0x01,
  0x10, 0xFF, 0xFF,
  0x10, 255,
  0x08, 0x08,
  0x08, 0x31,
  0x08, 0x32,
  0x08, 0x35,
  0x08, 0x08,
  0x08, 0x04,
  0x08, 0x02,
  0x10, 0xFF, 0x00,
  0x08, 0x20,
  0x08, 0x01,
  0x08, 0x02,
  0x10, 0x26, 0x21,
  0x08, 0x08,
  0x08, 0x02,
  0x00]

/-! ### HID short-item well-formedness

The checker below encodes exactly the item rules the spec states for report
descriptors: each item is one prefix byte whose low two bits give the data
size class (0, 1, 2, or 3 meaning 4 data bytes), followed by exactly that
many data bytes; bits 2-3 of the prefix are the item type (0 = Main) and
bits 4-7 the item tag; a Main item with tag 0xA opens a Collection and a
Main item with tag 0xC is End Collection, and these must balance. -/

/-- Number of data bytes that follow a HID short-item prefix byte: the low
two bits, with the value 3 meaning 4 data bytes. -/
def hidItemDataLen (b : Nat) : Nat :=
  if b % 4 = 3 then 4 else b % 4

/-- A prefix byte opens a Collection when its type bits are 0 (Main) and its
tag bits are 0xA. -/
def isCollectionItem (b : Nat) : Bool :=
  b / 4 % 4 == 0 && b / 16 == 10

/-- A prefix byte is End Collection when its type bits are 0 (Main) and its
tag bits are 0xC. -/
def isEndCollectionItem (b : Nat) : Bool :=
  b / 4 % 4 == 0 && b / 16 == 12

/-- Depth bookkeeping for one item prefix: Collection pushes, End Collection
pops (failing on underflow), everything else keeps the depth. -/
def hidNextDepth (b depth : Nat) : Option Nat :=
  if isEndCollectionItem b then
    match depth with
    | 0 => none
    | d + 1 => some d
  else if isCollectionItem b then some (depth + 1)
  else some depth

/-- Scan a byte sequence as HID short items, tracking collection depth: true
when the sequence decomposes into items (no truncated final item, no
collection underflow) and the depth returns to zero at the end. -/
def hidItemsBalanced : List Nat → Nat → Bool
  | [], depth => depth == 0
  | b :: rest, depth =>
    match hidNextDepth b depth with
    | none => false
    | some depth1 =>
      match hidItemDataLen b, rest with
      | 0, tail => hidItemsBalanced tail depth1
      | 1, _ :: tail => hidItemsBalanced tail depth1
      | 2, _ :: _ :: tail => hidItemsBalanced tail depth1
      | 4, _ :: _ :: _ :: _ :: tail => hidItemsBalanced tail depth1
      | _, _ => false

/-- A byte sequence is a well-formed HID report descriptor, in the sense the
spec requires, when it decomposes into short items with balanced
Collection and End Collection items. -/
def wellFormedHidReportDescriptor (bs : List Nat) : Bool :=
  hidItemsBalanced bs 0

/-! ### src/device/switch_gamepad.rs: the packed report

The struct derives PackedStruct with endian = lsb and size_bytes = 3.
The packed_struct derive lays the packed fields out in declared order
(multi-byte integers least-significant byte first under endian = lsb) and
enforces the declared size_bytes against that computed layout; a mismatch
between the declared size and the layout is rejected by the library, which
we model as the pack and unpack operations returning an error. -/

/-- From switch_gamepad.rs lines 66-83: struct SwitchGamepadReport with
fields buttons (u16), hat, padding, lx, ly, rx, ry (u8 each), in declared
order. Fields are modelled as Nat. -/
structure SwitchGamepadReport where
  buttons : Nat
  hat : Nat
  padding : Nat
  lx : Nat
  ly : Nat
  rx : Nat
  ry : Nat
  deriving DecidableEq, Repr

/-- All fields of the report are within their declared machine-integer
widths: buttons fits in 16 bits, every other field in 8 bits. -/
def SwitchGamepadReport.InWidth (r : SwitchGamepadReport) : Prop :=
  r.buttons < 2 ^ 16 ∧ r.hat < 2 ^ 8 ∧ r.padding < 2 ^ 8 ∧ r.lx < 2 ^ 8 ∧
    r.ly < 2 ^ 8 ∧ r.rx < 2 ^ 8 ∧ r.ry < 2 ^ 8

instance (r : SwitchGamepadReport) : Decidable r.InWidth := by
  unfold SwitchGamepadReport.InWidth
  infer_instance

/-- The declared packed size of SwitchGamepadReport: the size_bytes = 3
attribute on the struct. -/
def SwitchGamepadReport.SIZE_BYTES : Nat := 3

/-- The byte layout the packed_struct derive computes from the field list of
SwitchGamepadReport: fields in declared order, buttons least-significant
byte first (endian = lsb), one byte per u8 field; eight bytes in total. -/
def SwitchGamepadReport.fieldBytes (r : SwitchGamepadReport) : List Nat :=
  [r.buttons % 256, r.buttons / 256 % 256, r.hat % 256, r.padding % 256,
    r.lx % 256, r.ly % 256, r.rx % 256, r.ry % 256]

/-- Packing failure, as surfaced by the packed_struct library when the
declared byte width does not agree with the computed field layout. -/
inductive PackingError
  | sizeMismatch
  deriving DecidableEq, Repr

/-- pack for SwitchGamepadReport: serialize the fields in declared order
(lsb byte order) and enforce the declared size_bytes = 3 against the
computed layout; the mismatch is an error, never truncation. -/
def SwitchGamepadReport.pack (r : SwitchGamepadReport) :
    Except PackingError (List Nat) :=
  if (SwitchGamepadReport.fieldBytes r).length = SwitchGamepadReport.SIZE_BYTES then
    Except.ok (SwitchGamepadReport.fieldBytes r)
  else Except.error PackingError.sizeMismatch

/-- Reading a report back from its computed field layout: exactly eight
bytes, buttons reassembled least-significant byte first. -/
def SwitchGamepadReport.fromFieldBytes (bs : List Nat) :
    Except PackingError SwitchGamepadReport :=
  match bs with
  | [b0, b1, hat, padding, lx, ly, rx, ry] =>
    Except.ok ⟨b0 + 256 * b1, hat, padding, lx, ly, rx, ry⟩
  | _ => Except.error PackingError.sizeMismatch

/-- unpack for SwitchGamepadReport: a buffer of the declared size_bytes = 3
is required, then the field layout is read back; as with pack, the
disagreement between the declared size and the eight-byte layout means no
buffer can ever satisfy both. -/
def SwitchGamepadReport.unpack (bs : List Nat) :
    Except PackingError SwitchGamepadReport :=
  if bs.length = SwitchGamepadReport.SIZE_BYTES then
    SwitchGamepadReport.fromFieldBytes bs
  else Except.error PackingError.sizeMismatch

/-- True exactly when an Except value is ok. -/
def exceptIsOk {ε α : Type} : Except ε α → Bool
  | Except.ok _ => true
  | Except.error _ => false

/-! ### The interface engine (RawInterface) and its collaborators

RawInterface lives in src/interface/raw.rs, which is not part of the
visible sources; only its callers in switch_gamepad.rs are. Its state and
operations are therefore modelled from the spec (sections 3, 4.4 and 6). -/

/-- Modelled from the spec: the opaque transport failure of the external
usb-device collaborator (spec section 6, transport capability). -/
inductive UsbError
  | WouldBlock
  | BufferOverflow
  | InvalidState
  deriving DecidableEq, Repr

/-- Modelled from the spec (section 7): the typed error surface -
SerializationError for codec failure, TransportError wrapping the
collaborator error verbatim, ProtocolViolation for malformed control
payloads. -/
inductive UsbHidError
  | SerializationError
  | TransportError (e : UsbError)
  | ProtocolViolation
  deriving DecidableEq, Repr

/-- Modelled from the spec (section 7): conversion of a transport error into
UsbHidError wraps the collaborator error verbatim. -/
def UsbHidError.fromUsbError (e : UsbError) : UsbHidError :=
  UsbHidError.TransportError e

/-- Modelled from the spec (section 4.2): a descriptor writer capability
with the bytes written so far and a fixed capacity. -/
structure DescriptorWriter where
  bytes : List Nat
  capacity : Nat
  deriving DecidableEq, Repr

/-- Modelled from the spec (sections 4.2 and 6): the fixed nine-byte HID
class descriptor - length, type 0x21, spec version 0x0111 least-significant
byte first, country code 0, descriptor count 1, then the type/length pair
for the report descriptor. -/
def hidClassDescriptorBytes (reportDescriptorLen : Nat) : List Nat :=
  [0x09, 0x21, 0x11, 0x01, 0x00, 0x01, 0x22,
    reportDescriptorLen % 256, reportDescriptorLen / 256 % 256]

/-- Modelled from the spec (sections 3 and 4.4): the interface engine state -
the immutable report descriptor and interface identity, the idle table with
its configured default, the runtime protocol mode, the device-held report
buffer, the string table, and the interrupt-in transport capability. -/
structure RawInterface where
  reportDescriptorBytes : List Nat
  interfaceNumber : Nat
  interfaceProtocol : InterfaceProtocol
  idleDefault : Nat
  idles : Nat → Nat
  protocol : HidProtocol
  heldReport : List Nat
  strings : Nat → Option String
  transport : List Nat → Except UsbError Nat

/-- Modelled from the spec (section 4.4): the report descriptor is exposed
verbatim. -/
def RawInterface.report_descriptor (s : RawInterface) : List Nat :=
  s.reportDescriptorBytes

/-- Modelled from the spec (section 6): the interface-number identity. -/
def RawInterface.id (s : RawInterface) : Nat :=
  s.interfaceNumber

/-- Modelled from the spec (sections 4.2 and 6): emit the class descriptors
through the writer, propagating writer-capacity errors verbatim. -/
def RawInterface.write_descriptors (s : RawInterface) (writer : DescriptorWriter) :
    Except UsbError DescriptorWriter :=
  let payload := hidClassDescriptorBytes s.reportDescriptorBytes.length
  if writer.bytes.length + payload.length ≤ writer.capacity then
    Except.ok ⟨writer.bytes ++ payload, writer.capacity⟩
  else Except.error UsbError.BufferOverflow

/-- Modelled from the spec (section 6): string-descriptor lookup by index. -/
def RawInterface.get_string (s : RawInterface) (index _langId : Nat) : Option String :=
  s.strings index

/-- Modelled from the spec (section 4.4): reset restores the idle table to
the configured default and the protocol mode to Report. -/
def RawInterface.reset (s : RawInterface) : RawInterface :=
  { s with idles := fun _ => s.idleDefault, protocol := HidProtocol.Report }

/-- Modelled from the spec (section 4.4): set_report stores the
host-supplied report payload. -/
def RawInterface.set_report (s : RawInterface) (data : List Nat) :
    RawInterface × Except UsbError Unit :=
  ({ s with heldReport := data }, Except.ok ())

/-- Modelled from the spec (section 4.4): get_report reads the device-held
report into a buffer of the given length, reporting its size; an undersized
buffer is an error, not a silent truncation. -/
def RawInterface.get_report (s : RawInterface) (bufLen : Nat) :
    RawInterface × Except UsbError Nat :=
  if s.heldReport.length ≤ bufLen then (s, Except.ok s.heldReport.length)
  else (s, Except.error UsbError.BufferOverflow)

/-- Modelled from the spec (section 4.4): acknowledgement of a completed
get_report control transfer. -/
def RawInterface.get_report_ack (s : RawInterface) :
    RawInterface × Except UsbError Unit :=
  (s, Except.ok ())

/-- Modelled from the spec (section 4.4): set_idle updates the idle-table
entry for the given report-id. -/
def RawInterface.set_idle (s : RawInterface) (reportId value : Nat) : RawInterface :=
  { s with idles := fun k => if k = reportId then value else s.idles k }

/-- Modelled from the spec (section 4.4): get_idle reads the idle-table
entry for the given report-id. -/
def RawInterface.get_idle (s : RawInterface) (reportId : Nat) : Nat :=
  s.idles reportId

/-- Modelled from the spec (section 4.4): set_protocol stores the mode. -/
def RawInterface.set_protocol (s : RawInterface) (p : HidProtocol) : RawInterface :=
  { s with protocol := p }

/-- Modelled from the spec (section 4.4): get_protocol reads the mode. -/
def RawInterface.get_protocol (s : RawInterface) : HidProtocol :=
  s.protocol

/-- Modelled from the spec (section 4.4): write_report submits the payload
to the interrupt-in transport, propagating its failure and never retrying. -/
def RawInterface.write_report (s : RawInterface) (data : List Nat) :
    Except UsbError Nat :=
  s.transport data

/-! ### src/device/switch_gamepad.rs: the device wrapper -/

/-- From switch_gamepad.rs lines 85-87: SwitchGamepadInterface owns one
inner RawInterface. -/
structure SwitchGamepadInterface where
  inner : RawInterface

/-- From switch_gamepad.rs lines 90-99: write_report packs the typed report
(mapping any packing failure to SerializationError), then hands the bytes
to the inner interface, mapping its success to unit and converting its
error. The receiver is a shared reference, so the interface state is
returned unchanged. -/
def SwitchGamepadInterface.write_report (w : SwitchGamepadInterface)
    (report : SwitchGamepadReport) :
    Except UsbHidError Unit × SwitchGamepadInterface :=
  let res : Except UsbHidError Unit :=
    match report.pack.mapError fun _ => UsbHidError.SerializationError with
    | Except.error e => Except.error e
    | Except.ok data =>
      (w.inner.write_report data).map (fun _ => ()) |>.mapError UsbHidError.fromUsbError
  (res, w)

/-- From the delegate block, switch_gamepad.rs line 120. -/
def SwitchGamepadInterface.report_descriptor (w : SwitchGamepadInterface) : List Nat :=
  w.inner.report_descriptor

/-- From the delegate block, switch_gamepad.rs line 121. -/
def SwitchGamepadInterface.id (w : SwitchGamepadInterface) : Nat :=
  w.inner.id

/-- From the delegate block, switch_gamepad.rs line 122. -/
def SwitchGamepadInterface.write_descriptors (w : SwitchGamepadInterface)
    (writer : DescriptorWriter) : Except UsbError DescriptorWriter :=
  w.inner.write_descriptors writer

/-- From the delegate block, switch_gamepad.rs line 123. -/
def SwitchGamepadInterface.get_string (w : SwitchGamepadInterface)
    (index langId : Nat) : Option String :=
  w.inner.get_string index langId

/-- From the delegate block, switch_gamepad.rs line 124. -/
def SwitchGamepadInterface.reset (w : SwitchGamepadInterface) : SwitchGamepadInterface :=
  ⟨w.inner.reset⟩

/-- From the delegate block, switch_gamepad.rs line 125. -/
def SwitchGamepadInterface.set_report (w : SwitchGamepadInterface) (data : List Nat) :
    SwitchGamepadInterface × Except UsbError Unit :=
  let p := w.inner.set_report data
  (⟨p.1⟩, p.2)

/-- From the delegate block, switch_gamepad.rs line 126. -/
def SwitchGamepadInterface.get_report (w : SwitchGamepadInterface) (bufLen : Nat) :
    SwitchGamepadInterface × Except UsbError Nat :=
  let p := w.inner.get_report bufLen
  (⟨p.1⟩, p.2)

/-- From the delegate block, switch_gamepad.rs line 127. -/
def SwitchGamepadInterface.get_report_ack (w : SwitchGamepadInterface) :
    SwitchGamepadInterface × Except UsbError Unit :=
  let p := w.inner.get_report_ack
  (⟨p.1⟩, p.2)

/-- From the delegate block, switch_gamepad.rs line 128. -/
def SwitchGamepadInterface.set_idle (w : SwitchGamepadInterface)
    (reportId value : Nat) : SwitchGamepadInterface :=
  ⟨w.inner.set_idle reportId value⟩

/-- From the delegate block, switch_gamepad.rs line 129. -/
def SwitchGamepadInterface.get_idle (w : SwitchGamepadInterface) (reportId : Nat) : Nat :=
  w.inner.get_idle reportId

/-- From the delegate block, switch_gamepad.rs line 130. -/
def SwitchGamepadInterface.set_protocol (w : SwitchGamepadInterface)
    (p : HidProtocol) : SwitchGamepadInterface :=
  ⟨w.inner.set_protocol p⟩

/-- From the delegate block, switch_gamepad.rs line 131. -/
def SwitchGamepadInterface.get_protocol (w : SwitchGamepadInterface) : HidProtocol :=
  w.inner.get_protocol

/-! ### Concrete sample instances, used by the witnesses -/

/-- A concrete engine state: the gamepad configuration from default_config
(switch_gamepad.rs lines 101-114) with an always-successful transport. -/
def sampleRawInterface : RawInterface where
  reportDescriptorBytes := SWITCH_GAMEPAD_REPORT_DESCRIPTOR
  interfaceNumber := 0
  interfaceProtocol := InterfaceProtocol.Gamepad
  idleDefault := 10
  idles := fun _ => 10
  protocol := HidProtocol.Report
  heldReport := []
  strings := fun _ => some "Switch Gamepad"
  transport := fun data => Except.ok data.length

/-- A concrete wrapper around the sample engine state. -/
def sampleGamepad : SwitchGamepadInterface :=
  ⟨sampleRawInterface⟩

/-- The concrete report of the spec scenario: buttons 0x0041, hat 0x03,
padding 0, lx 0x80, ly 0x80, rx 0x7F, ry 0x00 (fields in declared order). -/
def scenarioReport : SwitchGamepadReport :=
  ⟨0x0041, 0x03, 0x00, 0x80, 0x80, 0x7F, 0x00⟩

/-! ### Theorems -/

/-- The computed field layout of SwitchGamepadReport occupies eight bytes,
while the declared size_bytes is three, so pack always reports the size
mismatch as an error. Shared helper for the packing claims. -/
theorem pack_eq_sizeMismatch (r : SwitchGamepadReport) :
    r.pack = Except.error PackingError.sizeMismatch := by
  simp [SwitchGamepadReport.pack, SwitchGamepadReport.fieldBytes,
    SwitchGamepadReport.SIZE_BYTES]

/-- The eight-byte field layout itself is lossless: reading it back yields
the original report whenever the fields are within their declared widths.
This is the round-trip the codec would enjoy were the declared size not in
conflict with the field list. -/
theorem fromFieldBytes_fieldBytes (r : SwitchGamepadReport) (h : r.InWidth) :
    SwitchGamepadReport.fromFieldBytes (SwitchGamepadReport.fieldBytes r) =
      Except.ok r := by
  obtain ⟨buttons, hat, padding, lx, ly, rx, ry⟩ := r
  obtain ⟨h1, h2, h3, h4, h5, h6, h7⟩ := h
  dsimp only at h1 h2 h3 h4 h5 h6 h7
  simp only [SwitchGamepadReport.fieldBytes, SwitchGamepadReport.fromFieldBytes,
    Except.ok.injEq, SwitchGamepadReport.mk.injEq]
  refine ⟨?_, ?_, ?_, ?_, ?_, ?_, ?_⟩ <;> omega

/-- C1: the claim says pack succeeds for every report whose fields are in
their declared widths. On this code it does not: the declared size_bytes =
3 cannot hold the eight-byte field set, so pack reports the size mismatch
for every such report - the failure case the claim reserves for exactly
this situation is always taken. -/
theorem c1_pack_fails_for_every_in_width_report :
    ∀ r : SwitchGamepadReport, r.InWidth →
      r.pack = Except.error PackingError.sizeMismatch := by
  intro r _
  exact pack_eq_sizeMismatch r

/-- Witness for C1 at the all-zero report, whose fields are all within
their declared widths. -/
theorem c1_pack_fails_witness :
    (⟨0, 0, 0, 0, 0, 0, 0⟩ : SwitchGamepadReport).InWidth ∧
      (⟨0, 0, 0, 0, 0, 0, 0⟩ : SwitchGamepadReport).pack =
        Except.error PackingError.sizeMismatch :=
  ⟨by decide, c1_pack_fails_for_every_in_width_report ⟨0, 0, 0, 0, 0, 0, 0⟩ (by decide)⟩

/-- C2: the round-trip law unpack (pack v) = v has no instance on this
code: pack never returns a byte sequence, and unpack rejects the computed
eight-byte field layout because the declared size is three. -/
theorem c2_roundtrip_never_engages :
    ∀ r : SwitchGamepadReport,
      exceptIsOk r.pack = false ∧
        exceptIsOk (SwitchGamepadReport.unpack (SwitchGamepadReport.fieldBytes r)) =
          false := by
  intro r
  refine ⟨?_, ?_⟩
  · rw [pack_eq_sizeMismatch r]
    rfl
  · simp [SwitchGamepadReport.unpack, SwitchGamepadReport.fieldBytes,
      SwitchGamepadReport.SIZE_BYTES, exceptIsOk]

/-- C3 counterexample: packing the scenario report (buttons 0x0041, hat
0x03, padding 0, lx 0x80, ly 0x80, rx 0x7F, ry 0x00) does not yield the
claimed bytes - it yields no bytes at all, reporting the size mismatch. -/
theorem c3_counterexample :
    scenarioReport.pack = Except.error PackingError.sizeMismatch := by
  exact pack_eq_sizeMismatch scenarioReport

/-- C3 amended: packing the scenario report fails with the size-mismatch
error (surfaced by the wrapper as SerializationError); the field layout the
derive computes for it, in declared order with buttons least-significant
byte first, is the header bytes 0x41 0x00 0x03, then the padding byte 0x00,
then the axis bytes 0x80 0x80 0x7F 0x00. -/
theorem c3_amended_scenario_layout :
    SwitchGamepadReport.fieldBytes scenarioReport =
        [0x41, 0x00, 0x03] ++ [0x00] ++ [0x80, 0x80, 0x7F, 0x00] ∧
      scenarioReport.pack = Except.error PackingError.sizeMismatch ∧
      (sampleGamepad.write_report scenarioReport).1 =
        Except.error UsbHidError.SerializationError := by
  refine ⟨rfl, pack_eq_sizeMismatch scenarioReport, rfl⟩

/-- C4 counterexample: at the all-maximal in-width report, pack does not
produce a byte sequence of the declared size three - it produces no byte
sequence, reporting the size mismatch. -/
theorem c4_counterexample :
    (⟨0xFFFF, 0xFF, 0xFF, 0xFF, 0xFF, 0xFF, 0xFF⟩ : SwitchGamepadReport).pack =
      Except.error PackingError.sizeMismatch := by
  exact pack_eq_sizeMismatch ⟨0xFFFF, 0xFF, 0xFF, 0xFF, 0xFF, 0xFF, 0xFF⟩

/-- C4 amended: pack never produces a byte sequence: the field list packs
to eight bytes, the declared size is three, and pack surfaces the
disagreement as an error for every input instead of emitting bytes. -/
theorem c4_amended_no_output :
    ∀ r : SwitchGamepadReport,
      r.pack = Except.error PackingError.sizeMismatch ∧
        (SwitchGamepadReport.fieldBytes r).length = 8 ∧
        SwitchGamepadReport.SIZE_BYTES = 3 := by
  intro r
  exact ⟨pack_eq_sizeMismatch r, rfl, rfl⟩

/-- C5: the subclass derived from an interface protocol is None exactly for
protocol None and Boot for every other protocol; in particular Gamepad
derives Boot, whose code is 0x01. -/
theorem c5_subclass_from_protocol :
    ∀ p : InterfaceProtocol,
      (InterfaceSubClass.fromProtocol p = InterfaceSubClass.None ↔
          p = InterfaceProtocol.None) ∧
        (p ≠ InterfaceProtocol.None →
          InterfaceSubClass.fromProtocol p = InterfaceSubClass.Boot) ∧
        (InterfaceSubClass.fromProtocol InterfaceProtocol.Gamepad).code = 0x01 := by
  intro p
  cases p <;> decide

/-- Witness for C5 at protocol Gamepad. -/
theorem c5_subclass_witness :
    InterfaceSubClass.fromProtocol InterfaceProtocol.Gamepad = InterfaceSubClass.Boot :=
  (c5_subclass_from_protocol InterfaceProtocol.Gamepad).2.1 (by decide)

/-- C6: the 85-byte SWITCH_GAMEPAD_REPORT_DESCRIPTOR does not parse as a
well-formed HID report descriptor under the short-item rules: scanning the
items reaches a final prefix (0x02, two data bytes) with only one byte
left, so the sequence does not even decompose into items. -/
theorem c6_descriptor_not_well_formed :
    wellFormedHidReportDescriptor SWITCH_GAMEPAD_REPORT_DESCRIPTOR = false ∧
      SWITCH_GAMEPAD_REPORT_DESCRIPTOR.length = 85 := by
  decide

/-- C7: every forwarded operation of the wrapper equals the same operation
of the inner interface on the same arguments, with the wrapper state being
exactly the forwarded inner state - pure delegation, no added logic. -/
theorem c7_wrapper_is_pure_delegation :
    ∀ (w : SwitchGamepadInterface) (writer : DescriptorWriter)
      (index langId reportId value bufLen : Nat) (data : List Nat) (p : HidProtocol),
      w.report_descriptor = w.inner.report_descriptor ∧
        w.id = w.inner.id ∧
        w.write_descriptors writer = w.inner.write_descriptors writer ∧
        w.get_string index langId = w.inner.get_string index langId ∧
        w.reset.inner = w.inner.reset ∧
        (w.set_report data).1.inner = (w.inner.set_report data).1 ∧
        (w.set_report data).2 = (w.inner.set_report data).2 ∧
        (w.get_report bufLen).1.inner = (w.inner.get_report bufLen).1 ∧
        (w.get_report bufLen).2 = (w.inner.get_report bufLen).2 ∧
        w.get_report_ack.1.inner = w.inner.get_report_ack.1 ∧
        w.get_report_ack.2 = w.inner.get_report_ack.2 ∧
        (w.set_idle reportId value).inner = w.inner.set_idle reportId value ∧
        w.get_idle reportId = w.inner.get_idle reportId ∧
        (w.set_protocol p).inner = w.inner.set_protocol p ∧
        w.get_protocol = w.inner.get_protocol := by
  intro w writer index langId reportId value bufLen data p
  exact ⟨rfl, rfl, rfl, rfl, rfl, rfl, rfl, rfl, rfl, rfl, rfl, rfl, rfl, rfl, rfl⟩

/-- C8: the wrapper write_report returns SerializationError exactly when
packing the report fails, and returns success exactly when packing yielded
bytes that the inner transport accepted - no retry, no swallowed error, no
substituted default. -/
theorem c8_write_report_error_propagation :
    ∀ (w : SwitchGamepadInterface) (r : SwitchGamepadReport),
      ((w.write_report r).1 = Except.error UsbHidError.SerializationError ↔
          exceptIsOk r.pack = false) ∧
        ((w.write_report r).1 = Except.ok () ↔
          ∃ data, r.pack = Except.ok data ∧
            exceptIsOk (w.inner.write_report data) = true) := by
  intro w r
  have hp := pack_eq_sizeMismatch r
  simp [SwitchGamepadInterface.write_report, hp, Except.mapError, exceptIsOk]

/-- Witness for C8: on the sample interface, writing the scenario report
returns SerializationError, matching the failing pack. -/
theorem c8_write_report_witness :
    (sampleGamepad.write_report scenarioReport).1 =
      Except.error UsbHidError.SerializationError :=
  (c8_write_report_error_propagation sampleGamepad scenarioReport).1.mpr rfl

/-- C9: decoding a byte into DescriptorType or HidProtocol succeeds exactly
on the declared codes (0x21 and 0x22, respectively 0x00 and 0x01), yields
the matching variant there, and yields none - never a default variant - on
every other byte. -/
theorem c9_classification_decode_exact :
    ∀ b : Nat,
      ((DescriptorType.fromPrimitive b).isSome = true ↔ b = 0x21 ∨ b = 0x22) ∧
        ((HidProtocol.fromPrimitive b).isSome = true ↔ b = 0x00 ∨ b = 0x01) ∧
        DescriptorType.fromPrimitive 0x21 = some DescriptorType.Hid ∧
        DescriptorType.fromPrimitive 0x22 = some DescriptorType.Report ∧
        HidProtocol.fromPrimitive 0x00 = some HidProtocol.Boot ∧
        HidProtocol.fromPrimitive 0x01 = some HidProtocol.Report := by
  intro b
  refine ⟨?_, ?_, rfl, rfl, rfl, rfl⟩
  · simp only [DescriptorType.fromPrimitive]
    split_ifs <;> simp_all
  · simp only [HidProtocol.fromPrimitive]
    split_ifs <;> simp_all

/-- Witness for C9 at the byte 0x21, decoding to the Hid descriptor type. -/
theorem c9_decode_witness :
    (DescriptorType.fromPrimitive 0x21).isSome = true :=
  (c9_classification_decode_exact 0x21).1.mpr (Or.inl rfl)

/-- C10: write_report takes the interface by shared reference, so the
engine-held state is unchanged whether the call succeeds or fails: get_idle
at every report-id, get_protocol and report_descriptor read the same values
after the call as before. -/
theorem c10_write_report_preserves_engine_state :
    ∀ (w : SwitchGamepadInterface) (r : SwitchGamepadReport) (reportId : Nat),
      ((w.write_report r).2.get_idle reportId = w.get_idle reportId) ∧
        ((w.write_report r).2.get_protocol = w.get_protocol) ∧
        ((w.write_report r).2.report_descriptor = w.report_descriptor) := by
  intro w r reportId
  exact ⟨rfl, rfl, rfl⟩

end UsbdHid
